import Mathlib

/-!
Shallow embedding of the graph chat agent orchestration engine
(src/agents/graph_nodes.py, src/agents/chat_agent.py, src/agents/models.py).

The language-model gateway, the tool registry and the conversation history
are external collaborators; they are passed in as explicit parameters
(`Except`-valued oracles for calls that may raise, a `List Msg` for the
history buffer).  Each Python node method becomes a pure function on
`ChatState`; the Responder additionally returns the updated history.
-/

namespace TSA

/-- Intent values of `SupervisorDecision.intent` (models.py, `Literal[...]`). -/
inductive Intent
  | tool_required
  | conversation
  | help
  | unclear
  | error
deriving DecidableEq

/-- Rendering of an `Intent` back to its Python string literal. -/
def intentStr : Intent → String
  | Intent.tool_required => "tool_required"
  | Intent.conversation => "conversation"
  | Intent.help => "help"
  | Intent.unclear => "unclear"
  | Intent.error => "error"

/-- `SupervisorDecision` (models.py): structured response from the supervisor. -/
structure SupervisorDecision where
  intent : Intent
  confidence : ℚ
  needs_rewrite : Bool
  reasoning : String
deriving DecidableEq

/-- `RewriterResponse` (models.py): structured response from the rewriter. -/
structure RewriterResponse where
  rewritten_message : String
  clarifications_added : List String
  confidence : ℚ
deriving DecidableEq

/-- One tool-invocation request inside an LLM reply (`ai_response.tool_calls`
entries: name, args payload, correlation id). -/
structure ToolCall where
  name : String
  args : String
  id : String
deriving DecidableEq

/-- An LLM reply from the tool-bound gateway: content plus zero or more
tool-invocation requests. -/
structure AIResponse where
  content : String
  tool_calls : List ToolCall
deriving DecidableEq

/-- Role-tagged messages exchanged with the gateway (SystemMessage,
HumanMessage, AIMessage, the appended tool-request reply, ToolMessage). -/
inductive Msg
  | system (content : String)
  | human (content : String)
  | ai (content : String)
  | aiToolRequest (resp : AIResponse)
  | tool (content : String) (tool_call_id : String)
deriving DecidableEq

/-- Values stored in the `metadata` dict (strings, floats, lists, ints, bools). -/
inductive MetaVal
  | str (s : String)
  | num (q : ℚ)
  | strList (l : List String)
  | nat (n : Nat)
  | bool (b : Bool)
deriving DecidableEq

/-- `ChatState` (models.py): the state that flows through the graph, with the
same field defaults as the pydantic model. -/
structure ChatState where
  original_message : String
  current_message : String
  supervisor_decision : Option SupervisorDecision
  rewriter_response : Option RewriterResponse
  tool_results : List (String × String)
  final_response : String
  metadata : List (String × MetaVal)
  next_node : String
  iteration_count : Nat
  max_iterations : Nat
deriving DecidableEq

/-- `ChatState(original_message=message)`: fresh per-turn state with pydantic
defaults (chat_agent.py, process_message). -/
def initialState (message : String) : ChatState :=
  { original_message := message
    current_message := ""
    supervisor_decision := none
    rewriter_response := none
    tool_results := []
    final_response := ""
    metadata := []
    next_node := ""
    iteration_count := 0
    max_iterations := 3 }

/-- A registry entry: name plus an execution function that returns observation
text or fails (`tool.invoke(args)`). -/
structure ToolDef where
  name : String
  invoke : String → Except String String

/-- Python dict assignment `d[k] = v`: replace in place when the key exists,
otherwise append (insertion order preserved). -/
def dictInsert (d : List (String × String)) (k v : String) : List (String × String) :=
  if d.any (fun p => decide (p.1 = k)) then
    d.map (fun p => if p.1 = k then (k, v) else p)
  else
    d ++ [(k, v)]

/-- `k in d` for a string-valued dict. -/
def containsKey (d : List (String × String)) (k : String) : Bool :=
  d.any (fun p => decide (p.1 = k))

/-- `d[k]` for a string-valued dict (empty string when absent; lookups in the
embedding are only performed after a `containsKey` check, as in the source). -/
def lookupD (d : List (String × String)) (k : String) : String :=
  match d.find? (fun p => decide (p.1 = k)) with
  | some p => p.2
  | none => ""

/-- `k in d` for the metadata dict. -/
def containsKeyM (d : List (String × MetaVal)) (k : String) : Bool :=
  d.any (fun p => decide (p.1 = k))

/-- Python `l[-n:]`: the last `n` elements (all callers pass `n ≥ 1`). -/
def takeLast {α : Type} (n : Nat) (l : List α) : List α :=
  l.drop (l.length - n)

/-- `GraphNodes._create_tool_summary`: each entry rendered
`"{name}: {result}"`, joined by `"; "`. -/
def createToolSummary (tool_results : List (String × String)) : String :=
  String.intercalate "; " (tool_results.map (fun p => p.1 ++ ": " ++ p.2))

/-- `GraphNodes._create_simple_messages`: system prompt, then up to the last
`history_limit` history entries (when requested and the buffer is non-empty),
then a `Context:` summary of tool results (when non-empty), then any
additional context, then the current user message. -/
def createSimpleMessages (memory : Option (List Msg)) (system_prompt : String)
    (user_message : String) (additional_context : Option String)
    (include_history : Bool) (history_limit : Nat)
    (tool_results : List (String × String)) : List Msg :=
  let messages := [Msg.system system_prompt]
  let messages :=
    match memory with
    | some hist =>
        if include_history = true ∧ hist ≠ [] then
          messages ++ takeLast history_limit hist
        else messages
    | none => messages
  let messages :=
    if tool_results ≠ [] then
      if createToolSummary tool_results ≠ "" then
        messages ++ [Msg.ai ("Context: " ++ createToolSummary tool_results)]
      else messages
    else messages
  let messages :=
    match additional_context with
    | some ctx => if ctx ≠ "" then messages ++ [Msg.ai ctx] else messages
    | none => messages
  messages ++ [Msg.human user_message]

/-- `GraphNodes.supervisor_node` (the Classifier).  The schema-constrained
gateway call is the oracle `llm`; `Except.error` models a raised exception. -/
def supervisor_node (llm : List Msg → Except String SupervisorDecision)
    (memory : Option (List Msg)) (supervisor_system : String)
    (state : ChatState) : ChatState :=
  let message_to_analyze :=
    if state.current_message ≠ "" then state.current_message
    else state.original_message
  let messages :=
    createSimpleMessages memory supervisor_system message_to_analyze none true 6 []
  match llm messages with
  | Except.ok decision =>
      { state with
        supervisor_decision := some decision
        current_message := message_to_analyze
        iteration_count := state.iteration_count + 1 }
  | Except.error e =>
      { state with
        supervisor_decision := some
          { intent := Intent.error
            confidence := 0
            needs_rewrite := false
            reasoning := "Error in supervisor: " ++ e } }

/-- `GraphNodes.rewriter_node`.  On success it records the rewrite and
replaces `current_message`; on a gateway failure it only resets
`current_message` to the original and records nothing. -/
def rewriter_node (llm : List Msg → Except String RewriterResponse)
    (memory : Option (List Msg)) (rewriter_system : String)
    (state : ChatState) : ChatState :=
  let additional_context :=
    match state.supervisor_decision with
    | some d =>
        if d.reasoning ≠ "" then some ("Supervisor reasoning: " ++ d.reasoning)
        else none
    | none => none
  let messages :=
    createSimpleMessages memory rewriter_system state.original_message
      additional_context true 6 []
  match llm messages with
  | Except.ok rw =>
      { state with
        rewriter_response := some rw
        current_message := rw.rewritten_message }
  | Except.error _ =>
      { state with current_message := state.original_message }

/-- The tool-execution `for` loop body of `tool_selector_node`: run each
requested tool in order, appending an observation `ToolMessage` (success text,
synthesized error string, or not-found notice) under the request's
correlation id. -/
def execToolCalls (tools : List ToolDef) :
    List ToolCall → List Msg → List (String × String) →
    List Msg × List (String × String)
  | [], messages, tool_results => (messages, tool_results)
  | tc :: rest, messages, tool_results =>
      match tools.find? (fun t => decide (t.name = tc.name)) with
      | some t =>
          match t.invoke tc.args with
          | Except.ok observation =>
              execToolCalls tools rest
                (messages ++ [Msg.tool observation tc.id])
                (dictInsert tool_results tc.name observation)
          | Except.error detail =>
              execToolCalls tools rest
                (messages ++
                  [Msg.tool ("Error executing " ++ tc.name ++ ": " ++ detail) tc.id])
                tool_results
      | none =>
          execToolCalls tools rest
            (messages ++ [Msg.tool ("Tool " ++ tc.name ++ " not found") tc.id])
            tool_results

/-- Outcome of the `while iteration < max_iterations` loop, carrying the
number of tool-bound gateway invocations performed. -/
inductive LoopOut
  | done (messages : List Msg) (tool_results : List (String × String)) (calls : Nat)
  | exhausted (messages : List Msg) (tool_results : List (String × String)) (calls : Nat)
  | failed (e : String) (calls : Nat)
deriving Inhabited

/-- The reactive `while` loop of `tool_selector_node`, with the remaining
iteration budget as fuel.  A reply without tool calls stores its content under
`llm_final_response` and exits (`done`); otherwise the requested tools are
executed and the loop continues. -/
def toolLoop (llm : List Msg → Except String AIResponse) (tools : List ToolDef) :
    Nat → List Msg → List (String × String) → Nat → LoopOut
  | 0, messages, tool_results, calls => LoopOut.exhausted messages tool_results calls
  | fuel + 1, messages, tool_results, calls =>
      match llm messages with
      | Except.error e => LoopOut.failed e calls
      | Except.ok ai =>
          if ai.tool_calls = [] then
            LoopOut.done messages
              (dictInsert tool_results "llm_final_response" ai.content) (calls + 1)
          else
            let step :=
              execToolCalls tools ai.tool_calls
                (messages ++ [Msg.aiToolRequest ai]) tool_results
            toolLoop llm tools fuel step.1 step.2 (calls + 1)

/-- The explicit instruction appended for the forced final answer. -/
def finalAnswerInstruction : String :=
  "Please provide your final answer based on the information gathered."

/-- User-facing prefix of the tool-selector error sentinel. -/
def toolSelectorErrorPrefix : String :=
  "I encountered an error while processing your request: "

/-- `GraphNodes.tool_selector_node` (the Tool-Dispatcher).  Returns the new
state together with the number of tool-bound gateway invocations and the
number of plain (unconstrained) gateway invocations.  `llmPlain` yields the
text the source extracts (`content` when present, else `str(response)`);
an `Except.error` from either oracle models the exception caught by the
node's handler, which replaces `tool_results` with the `error` sentinel. -/
def tool_selector_node (llmTools : List Msg → Except String AIResponse)
    (llmPlain : List Msg → Except String String)
    (tools : List ToolDef) (memory : Option (List Msg)) (tool_selector : String)
    (state : ChatState) : ChatState × Nat × Nat :=
  let messages :=
    createSimpleMessages memory tool_selector state.current_message none true 6 []
  match toolLoop llmTools tools 5 messages [] 0 with
  | LoopOut.done _ tr calls => ({ state with tool_results := tr }, calls, 0)
  | LoopOut.failed e calls =>
      ({ state with tool_results := [("error", toolSelectorErrorPrefix ++ e)] },
       calls, 0)
  | LoopOut.exhausted msgs tr calls =>
      match llmPlain (msgs ++ [Msg.human finalAnswerInstruction]) with
      | Except.ok text =>
          ({ state with tool_results := dictInsert tr "llm_final_response" text },
           calls, 1)
      | Except.error e =>
          ({ state with tool_results := [("error", toolSelectorErrorPrefix ++ e)] },
           calls, 1)

/-- Apology used when the synthesis reply has an unexpected shape. -/
def shapeApology : String :=
  "I apologize, but I couldn\x27t generate a proper response. Please try again."

/-- Apology used when a caught exception ends the Responder (graph_nodes.py)
or the whole graph invocation (chat_agent.py); both sites use this text. -/
def errorApology : String :=
  "I\x27m sorry, I encountered an error processing your request. Please try again."

/-- `GraphNodes._create_response_messages`: original message, last 2 history
entries, and the tool-results summary. -/
def createResponseMessages (memory : Option (List Msg)) (response_system : String)
    (state : ChatState) : List Msg :=
  createSimpleMessages memory response_system state.original_message none true 2
    state.tool_results

/-- The `try` body of `response_generator_node` that determines the answer
text: the `llm_final_response` sentinel verbatim, else the `error` sentinel,
else a synthesis gateway call (`Except.ok none` models a reply without a
`content` attribute, `Except.error` a raised exception). -/
def responderText (llm : List Msg → Except String (Option String))
    (memory : Option (List Msg)) (response_system : String)
    (state : ChatState) : Except String String :=
  if containsKey state.tool_results "llm_final_response" = true then
    Except.ok (lookupD state.tool_results "llm_final_response")
  else if containsKey state.tool_results "error" = true then
    Except.ok (lookupD state.tool_results "error")
  else
    match llm (createResponseMessages memory response_system state) with
    | Except.ok (some content) => Except.ok content
    | Except.ok none => Except.ok shapeApology
    | Except.error e => Except.error e

/-- The metadata dict set by the Responder on its normal path. -/
def responderMetadata (state : ChatState) : List (String × MetaVal) :=
  [("intent", MetaVal.str
      (match state.supervisor_decision with
       | some d => intentStr d.intent
       | none => "unknown")),
   ("confidence", MetaVal.num
      (match state.supervisor_decision with
       | some d => d.confidence
       | none => 0)),
   ("tools_used", MetaVal.strList (state.tool_results.map Prod.fst)),
   ("iterations", MetaVal.nat state.iteration_count),
   ("was_rewritten", MetaVal.bool state.rewriter_response.isSome)]

/-- `GraphNodes.response_generator_node` (the Responder).  Returns the new
state and the (possibly extended) history.  On the normal path it appends the
current message and the final response to the history and sets the five-key
metadata; on a caught exception it sets the apology text and an
`{error: ...}` metadata dict, leaving the history untouched. -/
def response_generator_node (llm : List Msg → Except String (Option String))
    (memory : Option (List Msg)) (response_system : String)
    (state : ChatState) : ChatState × Option (List Msg) :=
  match responderText llm memory response_system state with
  | Except.ok final =>
      let memory2 :=
        match memory with
        | some hist =>
            some (hist ++ [Msg.human state.current_message, Msg.ai final])
        | none => none
      ({ state with
          final_response := final
          metadata := responderMetadata state }, memory2)
  | Except.error e =>
      ({ state with
          final_response := errorApology
          metadata := [("error", MetaVal.str e)] }, memory)

/-- `GraphNodes.supervisor_router`: routing keys `"rewrite"`, `"tools"`,
`"respond"`, `"end"` (mapped by `_build_graph` to the Rewriter, the
Tool-Dispatcher, the Responder and END). -/
def supervisor_router (state : ChatState) : String :=
  match state.supervisor_decision with
  | none => "end"
  | some decision =>
      if decision.needs_rewrite = true ∧ state.rewriter_response = none then
        "rewrite"
      else if decision.intent = Intent.tool_required then
        "tools"
      else
        "respond"

/-- `AgentResponse` (models.py): the dataclass returned by
`process_message`; dataclass defaults are `None` for the optional fields. -/
structure AgentResponse where
  text : String
  visualizations : Option (List String)
  data : Option Unit
  metadata : List (String × MetaVal)
deriving DecidableEq

/-- The `RuntimeError` message raised by an uninitialized agent. -/
def notInitializedError : String :=
  "GraphChatAgent not initialized. Call initialize() first."

/-- `GraphChatAgent.process_message`.  `runGraph` is the compiled graph
invocation (an `Except.error` models any exception escaping graph execution);
the `RuntimeError` raised before the `try` block is the only failure that
propagates to the caller. -/
def process_message (is_initialized : Bool)
    (runGraph : ChatState → Except String ChatState)
    (message : String) : Except String AgentResponse :=
  if is_initialized = false then
    Except.error notInitializedError
  else
    match runGraph (initialState message) with
    | Except.ok finalState =>
        Except.ok
          { text := finalState.final_response
            visualizations := some []
            data := none
            metadata := finalState.metadata }
    | Except.error e =>
        Except.ok
          { text := errorApology
            visualizations := none
            data := none
            metadata := [("error", MetaVal.str e),
                         ("type", MetaVal.str "graph_execution_error")] }

/-- Node identifiers of the compiled graph (chat_agent.py, `_build_graph`). -/
inductive NodeName
  | supervisor
  | rewriter
  | tool_selector
  | response_generator
deriving DecidableEq

/-- The gateway oracles, prompt table and tool registry a graph execution
closes over. -/
structure Oracles where
  llmSup : List Msg → Except String SupervisorDecision
  llmRw : List Msg → Except String RewriterResponse
  llmTools : List Msg → Except String AIResponse
  llmPlain : List Msg → Except String String
  llmResp : List Msg → Except String (Option String)
  prompts : String → String
  tools : List ToolDef

/-- One node execution of the compiled graph, threading the shared
conversation history: only the Responder's handler ever produces an updated
history, all other nodes pass it through unchanged (their source contains no
history mutation). -/
def nodeStep (o : Oracles) : NodeName → ChatState × List Msg → ChatState × List Msg
  | NodeName.supervisor, (s, h) =>
      (supervisor_node o.llmSup (some h) (o.prompts "supervisor_system") s, h)
  | NodeName.rewriter, (s, h) =>
      (rewriter_node o.llmRw (some h) (o.prompts "rewriter_system") s, h)
  | NodeName.tool_selector, (s, h) =>
      ((tool_selector_node o.llmTools o.llmPlain o.tools (some h)
          (o.prompts "tool_selector") s).1, h)
  | NodeName.response_generator, (s, h) =>
      let r := response_generator_node o.llmResp (some h)
        (o.prompts "response_system") s
      (r.1, r.2.getD h)

/-! ## Theorems about the claims -/

/-- A turn state just after a Classifier visit that requested a rewrite. -/
def needsRewriteState : ChatState :=
  { initialState "check the sensor" with
    supervisor_decision := some
      { intent := Intent.unclear
        confidence := 0
        needs_rewrite := true
        reasoning := "ambiguous request" }
    current_message := "check the sensor"
    iteration_count := 1 }

/-- Claim C1: evaluation of the code at the failing input.  When the
Rewriter's gateway call raises, the node leaves `rewriter_response` empty, so
the router's rule 2 immediately selects the Rewriter again: the claim that the
Rewriter leaves the rewrite result non-empty on its failure path is false of
the source. -/
theorem C1_rewriter_failure_reenters_rewriter :
    (rewriter_node (fun _ => Except.error "gateway unavailable") (some [])
        "rewriter system" needsRewriteState).rewriter_response = none ∧
    supervisor_router (rewriter_node (fun _ => Except.error "gateway unavailable")
        (some []) "rewriter system" needsRewriteState) = "rewrite" := by
  constructor <;> rfl

/-- Claim C2 (spec side): the router contract as worded in the spec —
`Rewriter` iff `needs_rewrite` and no rewrite yet; `ToolDispatcher` iff intent
is `tool_required` and the rewrite is already resolved or was not needed;
`Responder` otherwise; `Terminal` when the classification is absent. -/
def routerSpecC2 (state : ChatState) : String :=
  match state.supervisor_decision with
  | none => "end"
  | some decision =>
      if decision.needs_rewrite = true ∧ state.rewriter_response = none then
        "rewrite"
      else if decision.intent = Intent.tool_required ∧
          (state.rewriter_response ≠ none ∨ decision.needs_rewrite = false) then
        "tools"
      else
        "respond"

/-- Claim C2: over every turn state — hence every combination of intent,
`needs_rewrite` and rewrite-presence — the implemented router agrees with the
spec's contract: Terminal when the classification is absent, Rewriter iff a
rewrite is requested and none exists yet, ToolDispatcher iff the intent is
`tool_required` (with the rewrite resolved or not needed), Responder in all
remaining cases. -/
theorem C2_router_matches_spec (state : ChatState) :
    supervisor_router state = routerSpecC2 state := by
  unfold supervisor_router routerSpecC2
  cases state.supervisor_decision with
  | none => rfl
  | some decision =>
      dsimp only
      by_cases h1 : decision.needs_rewrite = true ∧ state.rewriter_response = none
      · rw [if_pos h1, if_pos h1]
      · rw [if_neg h1, if_neg h1]
        by_cases h2 : decision.intent = Intent.tool_required
        · have h3 : state.rewriter_response ≠ none ∨ decision.needs_rewrite = false := by
            rcases not_and_or.mp h1 with ha | hb
            · right
              simpa using ha
            · left
              exact hb
          rw [if_pos h2, if_pos ⟨h2, h3⟩]
        · rw [if_neg h2, if_neg (fun hc => h2 hc.1)]

/-- Claim C6: on any gateway failure in the Classifier, the node returns
normally with the synthesized decision `{intent: error, confidence: 0,
needs_rewrite: false, reasoning: failure detail}`, and the router then sends
the turn to the Responder. -/
theorem C6_classifier_failure_degrades (memory : Option (List Msg))
    (supervisor_system e : String) (state : ChatState) :
    (supervisor_node (fun _ => Except.error e) memory supervisor_system
        state).supervisor_decision = some
      { intent := Intent.error
        confidence := 0
        needs_rewrite := false
        reasoning := "Error in supervisor: " ++ e } ∧
    supervisor_router (supervisor_node (fun _ => Except.error e) memory
        supervisor_system state) = "respond" := by
  constructor <;> rfl

/-- Claim C9, counterexample: the freshly created turn state for the inbound
message `"hello"` has `current_message = ""`, not the original message. -/
theorem C9_fresh_state_counterexample :
    ¬ ((initialState "hello").current_message
        = (initialState "hello").original_message) := by
  decide

/-- Claim C9, amended: the freshly created turn state has an empty
`current_message`; the Classifier treats the empty `current_message` as the
original message, and on its first successful visit sets `current_message`
equal to `original_message`. -/
theorem C9_amended_current_message (message : String)
    (llm : List Msg → Except String SupervisorDecision)
    (memory : Option (List Msg)) (supervisor_system : String)
    (d : SupervisorDecision)
    (h : llm (createSimpleMessages memory supervisor_system message none true 6 [])
        = Except.ok d) :
    (initialState message).current_message = "" ∧
    (supervisor_node llm memory supervisor_system
        (initialState message)).current_message
      = (initialState message).original_message := by
  refine ⟨rfl, ?_⟩
  unfold supervisor_node
  simp only [initialState]
  rw [if_neg (by simp)]
  rw [h]

/-- Witness for the amended C9 at a concrete message and gateway. -/
theorem C9_amended_current_message_witness :
    (initialState "hi").current_message = "" ∧
    (supervisor_node
        (fun _ => Except.ok
          { intent := Intent.conversation
            confidence := 1
            needs_rewrite := false
            reasoning := "greeting" })
        (some []) "supervisor system" (initialState "hi")).current_message
      = (initialState "hi").original_message :=
  C9_amended_current_message "hi"
    (fun _ => Except.ok
      { intent := Intent.conversation
        confidence := 1
        needs_rewrite := false
        reasoning := "greeting" })
    (some []) "supervisor system" _ rfl

/-- When every tool-bound reply carries at least one tool call, the loop
consumes its whole fuel, performing one gateway invocation per unit of fuel. -/
theorem toolLoop_always_tool_calls_exhausts (g : List Msg → AIResponse)
    (tools : List ToolDef) (hg : ∀ m, (g m).tool_calls ≠ []) :
    ∀ fuel messages tr calls, ∃ messages2 tr2,
      toolLoop (fun m => Except.ok (g m)) tools fuel messages tr calls
        = LoopOut.exhausted messages2 tr2 (calls + fuel) := by
  intro fuel
  induction fuel with
  | zero => intro messages tr calls; exact ⟨messages, tr, rfl⟩
  | succ n ih =>
      intro messages tr calls
      have hstep := ih
        (execToolCalls tools (g messages).tool_calls
          (messages ++ [Msg.aiToolRequest (g messages)]) tr).1
        (execToolCalls tools (g messages).tool_calls
          (messages ++ [Msg.aiToolRequest (g messages)]) tr).2
        (calls + 1)
      obtain ⟨m2, t2, heq⟩ := hstep
      refine ⟨m2, t2, ?_⟩
      unfold toolLoop
      dsimp only
      rw [if_neg (hg messages)]
      rw [heq]
      congr 1
      omega

/-- Claim C3: if the tool-bound gateway requests tool invocations on every
iteration, the dispatcher performs exactly 5 tool-bound invocations, then
exactly one additional unconstrained gateway call with the answer-now
instruction appended, and stores that call's text under the sentinel key
`llm_final_response` in `tool_results`. -/
theorem C3_dispatch_loop_bound (g : List Msg → AIResponse)
    (p : List Msg → String) (tools : List ToolDef) (memory : Option (List Msg))
    (tool_selector : String) (state : ChatState)
    (hg : ∀ m, (g m).tool_calls ≠ []) :
    ∃ messages tr,
      tool_selector_node (fun m => Except.ok (g m)) (fun m => Except.ok (p m))
          tools memory tool_selector state
        = ({ state with
              tool_results := dictInsert tr "llm_final_response"
                (p (messages ++ [Msg.human finalAnswerInstruction])) }, 5, 1) := by
  obtain ⟨m2, t2, heq⟩ := toolLoop_always_tool_calls_exhausts g tools hg 5
    (createSimpleMessages memory tool_selector state.current_message none true 6 [])
    [] 0
  refine ⟨m2, t2, ?_⟩
  unfold tool_selector_node
  dsimp only
  rw [heq]

/-- Witness for C3: a gateway that always requests `get_assets` against an
empty registry makes exactly 5 tool-bound calls and 1 forced final call. -/
theorem C3_dispatch_loop_bound_witness :
    ∃ (_m : List Msg) (tr : List (String × String)),
      tool_selector_node
          (fun _ => Except.ok
            { content := ""
              tool_calls := [{ name := "get_assets", args := "", id := "c1" }] })
          (fun _ => Except.ok "final summary") [] (some []) "tool system"
          (initialState "show machines")
        = ({ initialState "show machines" with
              tool_results := dictInsert tr "llm_final_response" "final summary" },
           5, 1) := by
  exact C3_dispatch_loop_bound
    (fun _ =>
      { content := ""
        tool_calls := [{ name := "get_assets", args := "", id := "c1" }] })
    (fun _ => "final summary") [] (some []) "tool system"
    (initialState "show machines") (fun _ => List.cons_ne_nil _ _)

/-- Claim C7: inside the dispatch loop, a tool whose execution fails yields an
appended observation `"Error executing {name}: {detail}"` under the request's
correlation id, a tool absent from the registry yields an appended not-found
observation under the same correlation id, and in either case processing
continues (with the remaining requests, and with the next loop iteration)
rather than terminating the turn. -/
theorem C7_tool_failure_containment (tools : List ToolDef) (tc : ToolCall)
    (rest : List ToolCall) (messages : List Msg) (tr : List (String × String))
    (llmTools : List Msg → Except String AIResponse) (ai : AIResponse)
    (fuel calls : Nat) :
    (∀ t detail, tools.find? (fun x => decide (x.name = tc.name)) = some t →
        t.invoke tc.args = Except.error detail →
        execToolCalls tools (tc :: rest) messages tr
          = execToolCalls tools rest
              (messages ++
                [Msg.tool ("Error executing " ++ tc.name ++ ": " ++ detail) tc.id])
              tr) ∧
    (tools.find? (fun x => decide (x.name = tc.name)) = none →
        execToolCalls tools (tc :: rest) messages tr
          = execToolCalls tools rest
              (messages ++ [Msg.tool ("Tool " ++ tc.name ++ " not found") tc.id])
              tr) ∧
    (llmTools messages = Except.ok ai → ai.tool_calls ≠ [] →
        toolLoop llmTools tools (fuel + 1) messages tr calls
          = toolLoop llmTools tools fuel
              (execToolCalls tools ai.tool_calls
                (messages ++ [Msg.aiToolRequest ai]) tr).1
              (execToolCalls tools ai.tool_calls
                (messages ++ [Msg.aiToolRequest ai]) tr).2
              (calls + 1)) := by
  refine ⟨?_, ?_, ?_⟩
  · intro t detail hfind hinv
    conv_lhs => unfold execToolCalls
    rw [hfind]
    dsimp only
    rw [hinv]
  · intro hfind
    conv_lhs => unfold execToolCalls
    rw [hfind]
  · intro hllm hcalls
    conv_lhs => unfold toolLoop
    rw [hllm]
    dsimp only
    rw [if_neg hcalls]

/-- Witness for C7 at a concrete failing tool: the error observation is
appended under the request's correlation id and execution proceeds. -/
theorem C7_tool_failure_containment_witness :
    execToolCalls [{ name := "read_sensor", invoke := fun _ => Except.error "timeout" }]
        [{ name := "read_sensor", args := "asset=1", id := "call-1" }] [] []
      = execToolCalls [{ name := "read_sensor", invoke := fun _ => Except.error "timeout" }]
          []
          ([] ++ [Msg.tool ("Error executing " ++ "read_sensor" ++ ": " ++ "timeout") "call-1"])
          [] :=
  (C7_tool_failure_containment
      [{ name := "read_sensor", invoke := fun _ => Except.error "timeout" }]
      { name := "read_sensor", args := "asset=1", id := "call-1" } [] [] []
      (fun _ => Except.error "no gateway") { content := "", tool_calls := [] } 0 0).1
    { name := "read_sensor", invoke := fun _ => Except.error "timeout" } "timeout"
    rfl rfl

/-- A turn state that routes directly to the Responder with no tool results
(a `conversation` turn after one Classifier visit). -/
def respErrState : ChatState :=
  { initialState "hello" with
    supervisor_decision := some
      { intent := Intent.conversation
        confidence := 1
        needs_rewrite := false
        reasoning := "greeting" }
    current_message := "hello"
    iteration_count := 1 }

/-- When the synthesis gateway call cannot raise, the Responder's answer-text
computation always succeeds (all three precedence branches return a value). -/
theorem responderText_ok_of_llm_ok (llm : List Msg → Except String (Option String))
    (memory : Option (List Msg)) (response_system : String) (state : ChatState)
    (h : ∀ msgs, ∃ r, llm msgs = Except.ok r) :
    ∃ f, responderText llm memory response_system state = Except.ok f := by
  by_cases h1 : containsKey state.tool_results "llm_final_response" = true
  · exact ⟨_, by unfold responderText; rw [if_pos h1]⟩
  · by_cases h2 : containsKey state.tool_results "error" = true
    · exact ⟨_, by unfold responderText; rw [if_neg h1, if_pos h2]⟩
    · obtain ⟨r, hr⟩ := h (createResponseMessages memory response_system state)
      cases r with
      | some c =>
          exact ⟨c, by unfold responderText; rw [if_neg h1, if_neg h2, hr]⟩
      | none =>
          exact ⟨shapeApology, by unfold responderText; rw [if_neg h1, if_neg h2, hr]⟩

/-- Claim C4, counterexample: when the Responder's synthesis call raises, the
caught-exception path sets `metadata = {error: ...}`, which lacks the key
`intent` (and the other four contract keys) — so the five keys are not
present in every errored turn's metadata. -/
theorem C4_error_path_counterexample :
    containsKeyM (response_generator_node (fun _ => Except.error "model timeout")
        (some []) "response system" respErrState).1.metadata "intent" = false := by
  rfl

/-- Claim C4, amended: on every turn in which the Responder's body completes
without raising — in particular whenever the synthesis gateway call cannot
raise, which covers error-intent classifications and tool-error sentinels —
the metadata contains all five keys `intent`, `confidence`, `tools_used`,
`iterations`, `was_rewritten`; a raising synthesis call (or a failing graph
invocation) instead yields an `error` metadata entry without them. -/
theorem C4_amended_metadata_keys (llm : List Msg → Except String (Option String))
    (memory : Option (List Msg)) (response_system : String) (state : ChatState)
    (h : ∀ msgs, ∃ r, llm msgs = Except.ok r) :
    containsKeyM (response_generator_node llm memory response_system
        state).1.metadata "intent" = true ∧
    containsKeyM (response_generator_node llm memory response_system
        state).1.metadata "confidence" = true ∧
    containsKeyM (response_generator_node llm memory response_system
        state).1.metadata "tools_used" = true ∧
    containsKeyM (response_generator_node llm memory response_system
        state).1.metadata "iterations" = true ∧
    containsKeyM (response_generator_node llm memory response_system
        state).1.metadata "was_rewritten" = true := by
  obtain ⟨f, hf⟩ := responderText_ok_of_llm_ok llm memory response_system state h
  unfold response_generator_node
  rw [hf]
  exact ⟨rfl, rfl, rfl, rfl, rfl⟩

/-- Witness for the amended C4 at a concrete turn and gateway. -/
theorem C4_amended_metadata_keys_witness :
    containsKeyM (response_generator_node (fun _ => Except.ok (some "hi there"))
        (some []) "response system" respErrState).1.metadata "intent" = true ∧
    containsKeyM (response_generator_node (fun _ => Except.ok (some "hi there"))
        (some []) "response system" respErrState).1.metadata "confidence" = true ∧
    containsKeyM (response_generator_node (fun _ => Except.ok (some "hi there"))
        (some []) "response system" respErrState).1.metadata "tools_used" = true ∧
    containsKeyM (response_generator_node (fun _ => Except.ok (some "hi there"))
        (some []) "response system" respErrState).1.metadata "iterations" = true ∧
    containsKeyM (response_generator_node (fun _ => Except.ok (some "hi there"))
        (some []) "response system" respErrState).1.metadata "was_rewritten" = true :=
  C4_amended_metadata_keys (fun _ => Except.ok (some "hi there")) (some [])
    "response system" respErrState (fun _ => ⟨some "hi there", rfl⟩)

/-- Claim C5: the Responder chooses the answer text by precedence — the
`llm_final_response` sentinel verbatim; else the `error` sentinel text; else a
synthesis gateway call over messages built from the original message, the last
2 history entries and the `"{name}: {result}"` / `"; "` rendering of
`tool_results`, with fixed apology strings when that call returns an
unexpected shape or raises. -/
theorem C5_responder_precedence (llm : List Msg → Except String (Option String))
    (memory : Option (List Msg)) (response_system : String) (state : ChatState) :
    createResponseMessages memory response_system state
      = createSimpleMessages memory response_system state.original_message none
          true 2 state.tool_results ∧
    createToolSummary [("get_assets", "3 assets"), ("read_sensor", "42.0")]
      = "get_assets: 3 assets; read_sensor: 42.0" ∧
    (containsKey state.tool_results "llm_final_response" = true →
      (response_generator_node llm memory response_system state).1.final_response
        = lookupD state.tool_results "llm_final_response") ∧
    (containsKey state.tool_results "llm_final_response" = false →
      containsKey state.tool_results "error" = true →
      (response_generator_node llm memory response_system state).1.final_response
        = lookupD state.tool_results "error") ∧
    (containsKey state.tool_results "llm_final_response" = false →
      containsKey state.tool_results "error" = false →
      ((∀ c, llm (createResponseMessages memory response_system state)
            = Except.ok (some c) →
          (response_generator_node llm memory response_system
              state).1.final_response = c) ∧
       (llm (createResponseMessages memory response_system state) = Except.ok none →
          (response_generator_node llm memory response_system
              state).1.final_response = shapeApology) ∧
       (∀ e, llm (createResponseMessages memory response_system state)
            = Except.error e →
          (response_generator_node llm memory response_system
              state).1.final_response = errorApology))) := by
  refine ⟨rfl, rfl, ?_, ?_, ?_⟩
  · intro h1
    unfold response_generator_node responderText
    rw [if_pos h1]
  · intro h1 h2
    have h1n : ¬ containsKey state.tool_results "llm_final_response" = true := by
      simp [h1]
    unfold response_generator_node responderText
    rw [if_neg h1n, if_pos h2]
  · intro h1 h2
    have h1n : ¬ containsKey state.tool_results "llm_final_response" = true := by
      simp [h1]
    have h2n : ¬ containsKey state.tool_results "error" = true := by
      simp [h2]
    refine ⟨?_, ?_, ?_⟩
    · intro c hc
      unfold response_generator_node responderText
      rw [if_neg h1n, if_neg h2n, hc]
    · intro hc
      unfold response_generator_node responderText
      rw [if_neg h1n, if_neg h2n, hc]
    · intro e he
      unfold response_generator_node responderText
      rw [if_neg h1n, if_neg h2n, he]

/-- Witness for C5 at a concrete turn whose dispatcher already produced the
final answer: the sentinel value is used verbatim. -/
theorem C5_responder_precedence_witness :
    (response_generator_node (fun _ => Except.ok (some "synthesized"))
        (some []) "response system"
        { initialState "hi" with
          tool_results := [("llm_final_response", "done")] }).1.final_response
      = lookupD [("llm_final_response", "done")] "llm_final_response" := by
  exact (C5_responder_precedence (fun _ => Except.ok (some "synthesized"))
      (some []) "response system"
      { initialState "hi" with
        tool_results := [("llm_final_response", "done")] }).2.2.1 rfl

/-- Claim C8, counterexample: a turn that reaches the Responder but whose
synthesis call raises leaves Conversation History untouched — no user or
assistant message is appended. -/
theorem C8_error_path_counterexample :
    (response_generator_node (fun _ => Except.error "model timeout")
        (some [Msg.human "earlier question", Msg.ai "earlier answer"])
        "response system" respErrState).2
      = some [Msg.human "earlier question", Msg.ai "earlier answer"] := by
  rfl

/-- Claim C8, amended: whenever the Responder's body completes without an
internal exception it appends exactly one user message — the current
(possibly rewritten) message — and exactly one assistant message — the final
response — to Conversation History; if its synthesis call raises, the history
is left unchanged; and no other node of the graph ever mutates the history. -/
theorem C8_amended_history_appends (o : Oracles) (state : ChatState)
    (hist : List Msg) (h : ∀ msgs, ∃ r, o.llmResp msgs = Except.ok r) :
    (response_generator_node o.llmResp (some hist)
        (o.prompts "response_system") state).2
      = some (hist ++ [Msg.human state.current_message,
          Msg.ai (response_generator_node o.llmResp (some hist)
            (o.prompts "response_system") state).1.final_response]) ∧
    (∀ n, n ≠ NodeName.response_generator →
      (nodeStep o n (state, hist)).2 = hist) := by
  constructor
  · obtain ⟨f, hf⟩ := responderText_ok_of_llm_ok o.llmResp (some hist)
      (o.prompts "response_system") state h
    unfold response_generator_node
    rw [hf]
  · intro n hn
    cases n with
    | supervisor => rfl
    | rewriter => rfl
    | tool_selector => rfl
    | response_generator => exact absurd rfl hn

/-- Fixed collaborators used to witness the amended C8. -/
def demoOracles : Oracles :=
  { llmSup := fun _ => Except.ok
      { intent := Intent.conversation
        confidence := 1
        needs_rewrite := false
        reasoning := "greeting" }
    llmRw := fun _ => Except.ok
      { rewritten_message := "clarified"
        clarifications_added := []
        confidence := 1 }
    llmTools := fun _ => Except.ok { content := "ok", tool_calls := [] }
    llmPlain := fun _ => Except.ok "ok"
    llmResp := fun _ => Except.ok (some "hello there")
    prompts := fun _ => "prompt"
    tools := [] }

/-- Witness for the amended C8 with the fixed collaborators. -/
theorem C8_amended_history_appends_witness :
    (response_generator_node demoOracles.llmResp (some [])
        (demoOracles.prompts "response_system") (initialState "hi")).2
      = some ([] ++ [Msg.human (initialState "hi").current_message,
          Msg.ai (response_generator_node demoOracles.llmResp (some [])
            (demoOracles.prompts "response_system")
            (initialState "hi")).1.final_response]) ∧
    (∀ n, n ≠ NodeName.response_generator →
      (nodeStep demoOracles n (initialState "hi", [])).2 = []) :=
  C8_amended_history_appends demoOracles (initialState "hi") []
    (fun _ => ⟨some "hello there", rfl⟩)

/-- Claim C10: an uninitialized agent raises the `RuntimeError` to the caller;
an initialized agent never raises — a successful graph run is converted to a
result carrying the final state's text and metadata, and any exception
escaping graph execution is converted to the fixed apology with
`{error, type: graph_execution_error}` metadata. -/
theorem C10_process_message_boundary
    (runGraph : ChatState → Except String ChatState) (message : String) :
    process_message false runGraph message = Except.error notInitializedError ∧
    (∃ resp, process_message true runGraph message = Except.ok resp) ∧
    (∀ fs, runGraph (initialState message) = Except.ok fs →
        process_message true runGraph message = Except.ok
          { text := fs.final_response
            visualizations := some []
            data := none
            metadata := fs.metadata }) ∧
    (∀ e, runGraph (initialState message) = Except.error e →
        process_message true runGraph message = Except.ok
          { text := errorApology
            visualizations := none
            data := none
            metadata := [("error", MetaVal.str e),
                         ("type", MetaVal.str "graph_execution_error")] }) := by
  have hok : ∀ fs, runGraph (initialState message) = Except.ok fs →
      process_message true runGraph message = Except.ok
        { text := fs.final_response
          visualizations := some []
          data := none
          metadata := fs.metadata } := by
    intro fs hr
    unfold process_message
    rw [if_neg (by simp), hr]
  have herr : ∀ e, runGraph (initialState message) = Except.error e →
      process_message true runGraph message = Except.ok
        { text := errorApology
          visualizations := none
          data := none
          metadata := [("error", MetaVal.str e),
                       ("type", MetaVal.str "graph_execution_error")] } := by
    intro e hr
    unfold process_message
    rw [if_neg (by simp), hr]
  refine ⟨rfl, ?_, hok, herr⟩
  cases hr : runGraph (initialState message) with
  | ok fs => exact ⟨_, hok fs hr⟩
  | error e => exact ⟨_, herr e hr⟩

/-- Witness for C10: an initialized agent whose graph invocation raises still
returns a result with the apology text and the error metadata. -/
theorem C10_process_message_boundary_witness :
    process_message true (fun _ => Except.error "graph blew up") "hi"
      = Except.ok
        { text := errorApology
          visualizations := none
          data := none
          metadata := [("error", MetaVal.str "graph blew up"),
                       ("type", MetaVal.str "graph_execution_error")] } :=
  (C10_process_message_boundary (fun _ => Except.error "graph blew up")
      "hi").2.2.2 "graph blew up" rfl

end TSA
